import Mathlib

/-!
Verification of the UCP demo merchant server (checkout session lifecycle).

Shallow embedding of `src/checkout.ts`, `src/data.ts` and `src/types.ts`:
the pure helpers (`resolveLineItems`, `calculateTotals`, `determineStatus`,
`getExpiresAt`) and the per-session bodies of the five checkout endpoints
(create / get / update / complete / cancel).

Modelling conventions:
- JavaScript numbers holding monetary amounts and quantities are `Int`.
  `Math.round(subtotal * 0.0875)` is modelled as exact rational half-up
  rounding: `Math.round(x)` is `Int.fdiv` of `(2*num + den)` by `(2*den)`
  for `x = num/den`, i.e. the floor of `x + 1/2`.
- ISO timestamp strings compared through `new Date(...)` are `Int`
  (milliseconds); `getExpiresAt` adds the 6-hour TTL.
- `uuidv4()` is a supply `gen : Nat → String` threaded with a counter, one
  draw per generated id, in the order the source draws them.
- JSON optionality is `Option`; JS truthiness of an optional string field
  (`checkout.payment?.selected_instrument_id`, `payment_data?.handler_id`)
  is `none` or the empty string being falsy.
- The 404 branch of each endpoint (session id not in the store) is the
  store lookup; the functions below model the handler body applied to the
  session the lookup found, and each constructor of the result types
  records exactly which snapshots the handler passed to `saveCheckout` /
  `saveOrder`, in order.
-/

-- ============================================================================
-- Data model (types.ts)
-- ============================================================================

structure Product where
  id : String
  name : String
  description : String
  price : Int
  currency : String
  image_url : Option String
  in_stock : Bool
deriving DecidableEq, Repr

structure ItemRef where
  id : String
deriving DecidableEq, Repr

structure LineItemRequest where
  item : ItemRef
  quantity : Int
deriving DecidableEq, Repr

structure ItemSnapshot where
  id : String
  name : String
  description : String
  image_url : Option String
deriving DecidableEq, Repr

structure LineItemResponse where
  id : String
  item : ItemSnapshot
  quantity : Int
  unit_price : Int
  total_price : Int
deriving DecidableEq, Repr

structure Totals where
  subtotal : Int
  tax : Int
  shipping : Int
  discount : Int
  total : Int
deriving DecidableEq, Repr

inductive CheckoutStatus where
  | incomplete
  | requires_escalation
  | ready_for_complete
  | complete_in_progress
  | completed
  | canceled
deriving DecidableEq, Repr

structure PaymentInstrument where
  id : String
  handler_id : String
  type : String
  display_name : Option String
deriving DecidableEq, Repr

structure PaymentRequest where
  selected_instrument_id : Option String
  instruments : Option (List PaymentInstrument)
deriving DecidableEq, Repr

inductive PaymentStatus where
  | pending
  | authorized
  | captured
  | failed
deriving DecidableEq, Repr

structure PaymentResponse where
  selected_instrument_id : Option String
  instruments : List PaymentInstrument
  status : PaymentStatus
deriving DecidableEq, Repr

structure PaymentData where
  handler_id : Option String
  token : Option String
deriving DecidableEq, Repr

inductive MessageType where
  | info
  | warning
  | error
deriving DecidableEq, Repr

structure Message where
  type : MessageType
  code : String
  message : String
deriving DecidableEq, Repr

structure Buyer where
  email : Option String
  name : Option String
  phone : Option String
deriving DecidableEq, Repr

structure Link where
  rel : String
  href : String
  title : Option String
deriving DecidableEq, Repr

structure UcpCapabilityRef where
  name : String
  version : String
deriving DecidableEq, Repr

structure UcpEnvelope where
  version : String
  capabilities : List UcpCapabilityRef
deriving DecidableEq, Repr

structure OrderConfirmation where
  id : String
  created_at : Int
deriving DecidableEq, Repr

structure CheckoutResponse where
  ucp : UcpEnvelope
  id : String
  status : CheckoutStatus
  line_items : List LineItemResponse
  currency : String
  totals : Totals
  payment : PaymentResponse
  links : List Link
  buyer : Option Buyer
  messages : Option (List Message)
  expires_at : Int
  order : Option OrderConfirmation
deriving DecidableEq, Repr

inductive OrderStatus where
  | pending
  | processing
  | shipped
  | delivered
  | canceled
deriving DecidableEq, Repr

structure Order where
  id : String
  checkout_id : String
  status : OrderStatus
  line_items : List LineItemResponse
  totals : Totals
  buyer : Option Buyer
  created_at : Int
  updated_at : Int
deriving DecidableEq, Repr

structure CheckoutCreateRequest where
  line_items : List LineItemRequest
  currency : String
  payment : Option PaymentRequest
  buyer : Option Buyer
deriving DecidableEq, Repr

structure CheckoutUpdateRequest where
  line_items : Option (List LineItemRequest)
  payment : Option PaymentRequest
  buyer : Option Buyer
deriving DecidableEq, Repr

-- ============================================================================
-- Catalog (data.ts)
-- ============================================================================

def products : List Product :=
  [ { id := "ai-voice-assistant"
    , name := "AI Voice Assistant"
    , description := "Smart speaker with advanced voice AI and multi-room audio"
    , price := 8999
    , currency := "USD"
    , image_url := some "https://images.unsplash.com/photo-1543512214-318c7553f230?w=200&h=200&fit=crop"
    , in_stock := true }
  , { id := "neural-earbuds"
    , name := "Neural Earbuds Pro"
    , description := "Wireless earbuds with real-time AI translation in 40+ languages"
    , price := 14999
    , currency := "USD"
    , image_url := some "https://images.unsplash.com/photo-1590658268037-6bf12165a8df?w=200&h=200&fit=crop"
    , in_stock := true }
  , { id := "smart-glasses"
    , name := "AI Smart Glasses"
    , description := "AR glasses with integrated AI assistant and heads-up display"
    , price := 29999
    , currency := "USD"
    , image_url := some "https://images.unsplash.com/photo-1574944985070-8f3ebc6b79d2?w=200&h=200&fit=crop"
    , in_stock := true }
  , { id := "robot-companion"
    , name := "Robot Companion"
    , description := "Desktop AI robot for productivity, scheduling, and companionship"
    , price := 19999
    , currency := "USD"
    , image_url := some "https://images.unsplash.com/photo-1485827404703-89b55fcc595e?w=200&h=200&fit=crop"
    , in_stock := true }
  , { id := "brain-band"
    , name := "Brain Band"
    , description := "EEG headband for AI-powered focus, meditation, and sleep tracking"
    , price := 12999
    , currency := "USD"
    , image_url := some "https://images.unsplash.com/photo-1589254065878-42c9da997008?w=200&h=200&fit=crop"
    , in_stock := false } ]

def getProduct (id : String) : Option Product :=
  products.find? (fun p => p.id == id)

-- ============================================================================
-- Constants (checkout.ts)
-- ============================================================================

def UCP_VERSION : String := "2026-01-11"

/-- TAX_RATE = 0.0875, kept as the exact rational 875 / 10000. -/
def TAX_RATE_NUM : Int := 875

def TAX_RATE_DEN : Int := 10000

def CHECKOUT_TTL_HOURS : Int := 6

/-- Six hours in milliseconds, the TTL added by `getExpiresAt`. -/
def CHECKOUT_TTL_MS : Int := CHECKOUT_TTL_HOURS * 60 * 60 * 1000

/-- JS truthiness of an optional string: `undefined`, `null` and `""` are
falsy, every other string is truthy. -/
def truthyStr : Option String → Bool
  | none => false
  | some s => s != ""

/-- Math.round on an exact rational `num / den` (`den > 0`): the floor of
`num / den + 1 / 2`, i.e. half-up rounding toward positive infinity, the
rounding JS `Math.round` performs. -/
def jsMathRound (num den : Int) : Int :=
  Int.fdiv (2 * num + den) (2 * den)

-- ============================================================================
-- Helper functions (checkout.ts)
-- ============================================================================

/-- `resolveLineItems(requests, currency)`: resolves each request against the
catalog, skipping unknown, out-of-stock and wrong-currency products with an
error string, and emitting a priced line item otherwise. `gen`/`n` model the
`uuidv4()` supply: each emitted item draws one fresh id. -/
def resolveLineItems (gen : Nat → String) (requests : List LineItemRequest)
    (currency : String) (n : Nat) : List LineItemResponse × List String :=
  match requests with
  | [] => ([], [])
  | req :: rest =>
    match getProduct req.item.id with
    | none =>
      let res := resolveLineItems gen rest currency n
      (res.1, ("Product not found: " ++ req.item.id) :: res.2)
    | some product =>
      if !product.in_stock then
        let res := resolveLineItems gen rest currency n
        (res.1, ("Product out of stock: " ++ product.name) :: res.2)
      else if product.currency != currency then
        let res := resolveLineItems gen rest currency n
        (res.1, ("Currency mismatch for " ++ product.name ++ ": expected "
                  ++ currency ++ ", got " ++ product.currency) :: res.2)
      else
        let res := resolveLineItems gen rest currency (n + 1)
        ({ id := gen n
         , item := { id := product.id
                   , name := product.name
                   , description := product.description
                   , image_url := product.image_url }
         , quantity := req.quantity
         , unit_price := product.price
         , total_price := product.price * req.quantity } :: res.1, res.2)

/-- `calculateTotals(lineItems)`: subtotal is the reduce-sum of total_price,
tax is `Math.round(subtotal * TAX_RATE)`, shipping is free at or above 5000
minor units and a flat 599 below, discount is always 0. -/
def calculateTotals (lineItems : List LineItemResponse) : Totals :=
  let subtotal := lineItems.foldl (fun sum item => sum + item.total_price) 0
  let tax := jsMathRound (subtotal * TAX_RATE_NUM) TAX_RATE_DEN
  let shipping : Int := if subtotal >= 5000 then 0 else 599
  let discount : Int := 0
  { subtotal := subtotal
  , tax := tax
  , shipping := shipping
  , discount := discount
  , total := subtotal + tax + shipping - discount }

/-- `determineStatus(checkout)`: readiness from the two fields the source
reads, `line_items` and `payment?.selected_instrument_id` (JS truthiness:
a missing or empty-string id counts as no selection). -/
def determineStatus (line_items : List LineItemResponse)
    (selected_instrument_id : Option String) : CheckoutStatus :=
  let hasItems := !line_items.isEmpty
  let hasPayment := truthyStr selected_instrument_id
  if !hasItems then .incomplete
  else if !hasPayment then .incomplete
  else .ready_for_complete

/-- `getExpiresAt()`: now plus the 6-hour TTL. -/
def getExpiresAt (now : Int) : Int :=
  now + CHECKOUT_TTL_MS

/-- The `ITEM_ERROR` message a resolution error string is wrapped in. -/
def itemErrorMessage (e : String) : Message :=
  { type := .error, code := "ITEM_ERROR", message := e }

/-- The message appended by the lazy-expiry branch of Get. -/
def expiredMessage : Message :=
  { type := .error, code := "EXPIRED", message := "Checkout session has expired" }

/-- The message set by the failed-settlement branch of Complete. -/
def paymentFailedMessage : Message :=
  { type := .error, code := "PAYMENT_FAILED", message := "Payment was declined" }

/-- The informational message appended by Cancel. -/
def canceledMessage : Message :=
  { type := .info, code := "CANCELED", message := "Checkout was canceled" }

def defaultInstruments : List PaymentInstrument :=
  [ { id := "mock-instrument-1"
    , handler_id := "mock-payment-handler"
    , type := "token"
    , display_name := some "Test Payment" } ]

def legalLinks : List Link :=
  [ { rel := "terms", href := "https://example.com/terms", title := some "Terms of Service" }
  , { rel := "privacy", href := "https://example.com/privacy", title := some "Privacy Policy" }
  , { rel := "refund", href := "https://example.com/refund", title := some "Refund Policy" } ]

def ucpEnvelope : UcpEnvelope :=
  { version := UCP_VERSION
  , capabilities := [{ name := "dev.ucp.shopping.checkout", version := UCP_VERSION }] }

-- ============================================================================
-- Endpoint handler bodies (checkout.ts)
-- ============================================================================

inductive CreateResult where
  /-- 400 response, no session created. -/
  | validationError (msg : String)
  /-- 201 response; `session` is saved and returned. -/
  | created (session : CheckoutResponse)
deriving DecidableEq, Repr

/-- `POST /checkout-sessions`: validates line_items and currency, resolves
items, builds the session (ids drawn in source order: one per emitted line
item, then one for the session), computes totals and status, saves. -/
def createCheckoutSession (gen : Nat → String) (n : Nat)
    (body : CheckoutCreateRequest) (now : Int) : CreateResult :=
  if body.line_items.isEmpty then
    .validationError "line_items is required and cannot be empty"
  else if body.currency == "" then
    .validationError "currency is required"
  else
    let res := resolveLineItems gen body.line_items body.currency n
    let items := res.1
    let errors := res.2
    let checkout : CheckoutResponse :=
      { ucp := ucpEnvelope
      , id := gen (n + items.length)
      , status := .incomplete
      , line_items := items
      , currency := body.currency
      , totals := calculateTotals items
      , payment :=
        { selected_instrument_id := body.payment.bind (fun p => p.selected_instrument_id)
        , instruments := (body.payment.bind (fun p => p.instruments)).getD defaultInstruments
        , status := .pending }
      , links := legalLinks
      , buyer := body.buyer
      , messages :=
          if errors.isEmpty then none
          else some (errors.map itemErrorMessage)
      , expires_at := getExpiresAt now
      , order := none }
    .created { checkout with
               status := determineStatus checkout.line_items
                 checkout.payment.selected_instrument_id }

/-- `GET /checkout-sessions/:id`, applied to the session the store lookup
found. Returns the session handed back to the caller together with whether
`saveCheckout` ran; the stored and returned sessions are always identical.
The source compares `new Date(checkout.expires_at) < new Date()` with no
check of the current status. -/
def getCheckoutSession (checkout : CheckoutResponse) (now : Int) :
    CheckoutResponse × Bool :=
  if checkout.expires_at < now then
    ({ checkout with
       status := .canceled
     , messages := some ((checkout.messages.getD []) ++ [expiredMessage]) },
     true)
  else
    (checkout, false)

inductive UpdateResult where
  /-- 400 response `"Cannot update <status> checkout"`; nothing saved. -/
  | invalidState (status : CheckoutStatus)
  /-- 200 response; `session` is saved and returned. -/
  | ok (session : CheckoutResponse)
deriving DecidableEq, Repr

/-- The session as mutated by the PUT handler body, after the terminal-state
guard has passed: each supplied field group is applied in source order
(line items with totals and item-error messages, then payment, then buyer),
the status is recomputed and the TTL extended. The payment branch assigns
`selected_instrument_id` from the request unconditionally and falls back to
the existing `instruments` only when the request omits them. -/
def updatedVersion (gen : Nat → String) (n : Nat)
    (checkout : CheckoutResponse) (body : CheckoutUpdateRequest) (now : Int) :
    CheckoutResponse :=
  let c1 :=
      match body.line_items with
      | none => checkout
      | some reqs =>
        let res := resolveLineItems gen reqs checkout.currency n
        let c := { checkout with line_items := res.1, totals := calculateTotals res.1 }
        if res.2.isEmpty then c
        else { c with messages := some (res.2.map itemErrorMessage) }
    let c2 :=
      match body.payment with
      | none => c1
      | some p =>
        { c1 with payment :=
          { c1.payment with
            selected_instrument_id := p.selected_instrument_id
          , instruments := p.instruments.getD c1.payment.instruments } }
    let c3 :=
      match body.buyer with
      | none => c2
      | some b => { c2 with buyer := some b }
    { c3 with
      status := determineStatus c3.line_items c3.payment.selected_instrument_id
    , expires_at := getExpiresAt now }

/-- `PUT /checkout-sessions/:id`, applied to the session the store lookup
found: rejects terminal sessions with a 400 and saves nothing, otherwise
saves and returns the session as mutated by the handler body
(`updatedVersion`). -/
def updateCheckoutSession (gen : Nat → String) (n : Nat)
    (checkout : CheckoutResponse) (body : CheckoutUpdateRequest) (now : Int) :
    UpdateResult :=
  if checkout.status = .completed ∨ checkout.status = .canceled then
    .invalidState checkout.status
  else
    .ok (updatedVersion gen n checkout body now)

inductive CompleteResult where
  /-- 400 response `"Checkout already completed"`; nothing saved. -/
  | alreadyCompleted
  /-- 400 response `"Cannot complete canceled checkout"`; nothing saved. -/
  | cannotComplete
  /-- 400 response `"Checkout not ready for completion"` with the current
  status and a hint; nothing saved. -/
  | notReady (current : CheckoutStatus)
  /-- 400 response `"payment_data.handler_id is required"`; nothing saved. -/
  | missingHandler
  /-- 400 response returning `final`; `saveCheckout` ran twice, first on
  `inProgress` then on `final`; `saveOrder` never ran. -/
  | paymentFailed (inProgress : CheckoutResponse) (final : CheckoutResponse)
  /-- 200 response returning `final`; `saveCheckout` ran on `inProgress`
  then on `final`, and `saveOrder` ran once on `order`. -/
  | success (inProgress : CheckoutResponse) (order : Order) (final : CheckoutResponse)
deriving DecidableEq, Repr

/-- `POST /checkout-sessions/:id/complete`, applied to the session the store
lookup found. Guards on status, validates `payment_data.handler_id`,
persists `complete_in_progress`, then settles by inspecting the token:
`fail_token` reverts to `ready_for_complete` with payment status `failed`
and a `PAYMENT_FAILED` message; anything else creates the order and marks
the session completed/captured. -/
def completeCheckoutSession (gen : Nat → String) (n : Nat)
    (checkout : CheckoutResponse) (body : PaymentData) (now : Int) :
    CompleteResult :=
  if checkout.status = .completed then .alreadyCompleted
  else if checkout.status = .canceled then .cannotComplete
  else if checkout.status ≠ .ready_for_complete then .notReady checkout.status
  else if !truthyStr body.handler_id then .missingHandler
  else
    let inProgress := { checkout with status := .complete_in_progress }
    if body.token == some "fail_token" then
      .paymentFailed inProgress
        { inProgress with
          status := .ready_for_complete
        , payment := { inProgress.payment with status := .failed }
        , messages := some [paymentFailedMessage] }
    else
      let order : Order :=
        { id := "ORD-" ++ ((gen n).take 8).toUpper
        , checkout_id := inProgress.id
        , status := .pending
        , line_items := inProgress.line_items
        , totals := inProgress.totals
        , buyer := inProgress.buyer
        , created_at := now
        , updated_at := now }
      .success inProgress order
        { inProgress with
          status := .completed
        , payment := { inProgress.payment with status := .captured }
        , order := some { id := order.id, created_at := order.created_at } }

inductive CancelResult where
  /-- 400 response `"Cannot cancel completed checkout"`; nothing saved. -/
  | cannotCancel
  /-- 200 response returning the session as found; nothing saved. -/
  | alreadyCanceled (session : CheckoutResponse)
  /-- 200 response; `session` is saved and returned. -/
  | ok (session : CheckoutResponse)
deriving DecidableEq, Repr

/-- `POST /checkout-sessions/:id/cancel`, applied to the session the store
lookup found: completed sessions are rejected, canceled sessions are
returned as is, anything else becomes `canceled` with one appended
informational `CANCELED` message and is saved. -/
def cancelCheckoutSession (checkout : CheckoutResponse) : CancelResult :=
  if checkout.status = .completed then .cannotCancel
  else if checkout.status = .canceled then .alreadyCanceled checkout
  else .ok { checkout with
             status := .canceled
           , messages := some ((checkout.messages.getD []) ++ [canceledMessage]) }

-- ============================================================================
-- Spec-side definitions (for the refinement claims)
-- ============================================================================

/-- The payload of a resolved line item with the generated id erased, used
to compare the resolver's output against the per-request specification
independently of the uuid supply. -/
structure ResolvedItemData where
  item : ItemSnapshot
  quantity : Int
  unit_price : Int
  total_price : Int
deriving DecidableEq, Repr

def stripId (it : LineItemResponse) : ResolvedItemData :=
  { item := it.item
  , quantity := it.quantity
  , unit_price := it.unit_price
  , total_price := it.total_price }

/-- Spec 4.1, per request: the error string produced for an unknown,
out-of-stock or wrong-currency product, `none` when the request resolves. -/
def resolveErrorSpec (currency : String) (req : LineItemRequest) : Option String :=
  match getProduct req.item.id with
  | none => some ("Product not found: " ++ req.item.id)
  | some p =>
    if !p.in_stock then some ("Product out of stock: " ++ p.name)
    else if p.currency != currency then
      some ("Currency mismatch for " ++ p.name ++ ": expected "
             ++ currency ++ ", got " ++ p.currency)
    else none

/-- Spec 4.1, per request: the emitted line item (id erased) when the
request resolves, `none` when it is skipped. -/
def resolveItemSpec (currency : String) (req : LineItemRequest) : Option ResolvedItemData :=
  match getProduct req.item.id with
  | none => none
  | some p =>
    if !p.in_stock then none
    else if p.currency != currency then none
    else some
      { item := { id := p.id, name := p.name, description := p.description
                , image_url := p.image_url }
      , quantity := req.quantity
      , unit_price := p.price
      , total_price := p.price * req.quantity }

/-- Spec 4.3 decision table, rows in order: empty line items are
`incomplete`, non-empty without a selected instrument are `incomplete`,
non-empty with a selected instrument are `ready_for_complete`. Following
the JS truthiness the table describes, a missing or empty-string
`selected_instrument_id` counts as no selected instrument. -/
def statusTable (line_items : List LineItemResponse)
    (selected_instrument_id : Option String) : CheckoutStatus :=
  if line_items.isEmpty then .incomplete
  else if truthyStr selected_instrument_id = false then .incomplete
  else .ready_for_complete

-- ============================================================================
-- Helper lemmas
-- ============================================================================

theorem foldl_add_total_price (l : List LineItemResponse) (s : Int) :
    l.foldl (fun sum item => sum + item.total_price) s
      = s + (l.map (fun item => item.total_price)).sum := by
  induction l generalizing s with
  | nil => simp
  | cons hd tl ih => simp [List.foldl_cons, ih, Int.add_assoc]

/-- Characterization of `jsMathRound num den` for positive `den`: it is the
unique integer `t` with `t ≤ num / den + 1 / 2 < t + 1`, cleared of
denominators. -/
theorem jsMathRound_bounds (num den : Int) (hden : 0 < den) :
    2 * den * jsMathRound num den ≤ 2 * num + den ∧
      2 * num + den < 2 * den * (jsMathRound num den + 1) := by
  have h2 : (0:Int) < 2 * den := by omega
  have hfe : Int.fdiv (2 * num + den) (2 * den) = (2 * num + den) / (2 * den) :=
    Int.fdiv_eq_ediv _ (le_of_lt h2)
  have hdm := Int.ediv_add_emod (2 * num + den) (2 * den)
  have hnn := Int.emod_nonneg (2 * num + den) (by omega : (2:Int) * den ≠ 0)
  have hlt := Int.emod_lt_of_pos (2 * num + den) h2
  unfold jsMathRound
  rw [hfe]
  constructor
  · nlinarith [hdm, hnn]
  · nlinarith [hdm, hlt]

theorem statusTable_eq_determineStatus (l : List LineItemResponse)
    (sel : Option String) : statusTable l sel = determineStatus l sel := by
  unfold statusTable determineStatus
  cases h : l.isEmpty <;> cases ht : truthyStr sel <;> simp [h, ht]

-- ============================================================================
-- Concrete fixtures for witnesses and counterexamples
-- ============================================================================

/-- A deterministic stand-in for the `uuidv4()` supply. -/
def demoGen : Nat → String := fun k => "uuid-" ++ toString k

def demoItem : LineItemResponse :=
  { id := "uuid-0"
  , item := { id := "ai-voice-assistant"
            , name := "AI Voice Assistant"
            , description := "Smart speaker with advanced voice AI and multi-room audio"
            , image_url := some "https://images.unsplash.com/photo-1543512214-318c7553f230?w=200&h=200&fit=crop" }
  , quantity := 2
  , unit_price := 8999
  , total_price := 17998 }

/-- A stored session with one resolved line item, parameterized by status and
selected payment instrument, expiring at time 1000. -/
def demoSession (st : CheckoutStatus) (sel : Option String) : CheckoutResponse :=
  { ucp := ucpEnvelope
  , id := "sess-1"
  , status := st
  , line_items := [demoItem]
  , currency := "USD"
  , totals := calculateTotals [demoItem]
  , payment := { selected_instrument_id := sel
               , instruments := defaultInstruments
               , status := .pending }
  , links := legalLinks
  , buyer := none
  , messages := none
  , expires_at := 1000
  , order := none }

-- ============================================================================
-- Claim theorems
-- ============================================================================


/-- The catalog map is keyed by product id: a successful lookup returns the
product stored under that id. -/
theorem getProduct_some_id (id : String) (p : Product)
    (h : getProduct id = some p) : p.id = id := by
  unfold getProduct at h
  have := List.find?_some h
  simpa using this

theorem resolveLineItems_errors (gen : Nat → String)
    (requests : List LineItemRequest) (currency : String) (n : Nat) :
    (resolveLineItems gen requests currency n).2
      = requests.filterMap (resolveErrorSpec currency) := by
  induction requests generalizing n with
  | nil => simp [resolveLineItems]
  | cons req rest ih =>
    cases hp : getProduct req.item.id with
    | none =>
      simp [resolveLineItems, hp, resolveErrorSpec, List.filterMap_cons, ih]
    | some p =>
      cases hs : p.in_stock with
      | false =>
        simp [resolveLineItems, hp, hs, resolveErrorSpec, List.filterMap_cons, ih]
      | true =>
        by_cases hc : p.currency = currency
        · simp [resolveLineItems, hp, hs, hc, resolveErrorSpec, List.filterMap_cons, ih]
        · have hc' : (p.currency != currency) = true := by simp [bne, hc]
          simp [resolveLineItems, hp, hs, hc', resolveErrorSpec, List.filterMap_cons, ih, hc]

theorem resolveLineItems_items (gen : Nat → String)
    (requests : List LineItemRequest) (currency : String) (n : Nat) :
    (resolveLineItems gen requests currency n).1.map stripId
      = requests.filterMap (resolveItemSpec currency) := by
  induction requests generalizing n with
  | nil => simp [resolveLineItems]
  | cons req rest ih =>
    cases hp : getProduct req.item.id with
    | none =>
      simp [resolveLineItems, hp, resolveItemSpec, List.filterMap_cons, ih]
    | some p =>
      cases hs : p.in_stock with
      | false =>
        simp [resolveLineItems, hp, hs, resolveItemSpec, List.filterMap_cons, ih]
      | true =>
        by_cases hc : p.currency = currency
        · simp [resolveLineItems, hp, hs, hc, resolveItemSpec, List.filterMap_cons, ih, stripId]
        · have hc' : (p.currency != currency) = true := by simp [bne, hc]
          simp [resolveLineItems, hp, hs, hc', resolveItemSpec, List.filterMap_cons, ih, hc]

theorem resolveLineItems_mem (gen : Nat → String)
    (requests : List LineItemRequest) (currency : String) (n : Nat) :
    ∀ it ∈ (resolveLineItems gen requests currency n).1,
      it.total_price = it.unit_price * it.quantity ∧
      ∃ p, getProduct it.item.id = some p ∧ it.unit_price = p.price := by
  induction requests generalizing n with
  | nil => simp [resolveLineItems]
  | cons req rest ih =>
    cases hp : getProduct req.item.id with
    | none =>
      simpa [resolveLineItems, hp] using ih n
    | some p =>
      cases hs : p.in_stock with
      | false =>
        simpa [resolveLineItems, hp, hs] using ih n
      | true =>
        by_cases hc : p.currency = currency
        · intro it hit
          rw [resolveLineItems] at hit
          simp [hp, hs, hc] at hit
          rcases hit with h | h
          · subst h
            refine ⟨rfl, p, ?_, rfl⟩
            conv in p.id => rw [getProduct_some_id req.item.id p hp]
            exact hp
          · exact ih (n + 1) it h
        · have hc' : (p.currency != currency) = true := by simp [bne, hc]
          intro it hit
          rw [resolveLineItems] at hit
          simp [hp, hs, hc'] at hit
          exact ih n it hit

/-- C3. Line-item resolver contract: each request is handled independently —
the error list is the in-order accumulation of the per-request error
strings (unknown product, out of stock, currency mismatch), the item list
is, in input order and excluding skipped requests, exactly the per-request
resolution (up to the generated ids), and every emitted item prices at the
catalog price with `total_price = unit_price * quantity`. The function
always returns a pair of lists; it has no failure outcome. -/
theorem resolveLineItems_spec (gen : Nat → String) (requests : List LineItemRequest)
    (currency : String) (n : Nat) :
    (resolveLineItems gen requests currency n).2
        = requests.filterMap (resolveErrorSpec currency) ∧
    ((resolveLineItems gen requests currency n).1.map stripId
        = requests.filterMap (resolveItemSpec currency)) ∧
    ∀ it ∈ (resolveLineItems gen requests currency n).1,
      it.total_price = it.unit_price * it.quantity ∧
      ∃ p, getProduct it.item.id = some p ∧ it.unit_price = p.price :=
  ⟨resolveLineItems_errors gen requests currency n,
   resolveLineItems_items gen requests currency n,
   resolveLineItems_mem gen requests currency n⟩

/-- C4. Totals formula: for every item list, the subtotal is the sum of the
items' `total_price`, the tax is `subtotal * 875 / 10000` rounded half-up
to the nearest integer minor unit (stated by clearing denominators:
`tax ≤ subtotal * rate + 1/2 < tax + 1`), shipping is 0 at or above the
5000 threshold and the flat 599 below it, the discount is 0 and the total
is `subtotal + tax + shipping - discount`; the empty list yields
subtotal 0, tax 0, shipping 599, total 599. -/
theorem calculateTotals_spec (items : List LineItemResponse) :
    (calculateTotals items).subtotal = (items.map (fun it => it.total_price)).sum ∧
    2 * TAX_RATE_DEN * (calculateTotals items).tax
        ≤ 2 * ((calculateTotals items).subtotal * TAX_RATE_NUM) + TAX_RATE_DEN ∧
    2 * ((calculateTotals items).subtotal * TAX_RATE_NUM) + TAX_RATE_DEN
        < 2 * TAX_RATE_DEN * ((calculateTotals items).tax + 1) ∧
    (calculateTotals items).shipping
        = (if 5000 ≤ (calculateTotals items).subtotal then 0 else 599) ∧
    (calculateTotals items).discount = 0 ∧
    (calculateTotals items).total
        = (calculateTotals items).subtotal + (calculateTotals items).tax
            + (calculateTotals items).shipping - (calculateTotals items).discount ∧
    calculateTotals [] = { subtotal := 0, tax := 0, shipping := 599, discount := 0, total := 599 } := by
  have hbounds := jsMathRound_bounds ((calculateTotals items).subtotal * TAX_RATE_NUM)
      TAX_RATE_DEN (by unfold TAX_RATE_DEN; omega)
  have htax : (calculateTotals items).tax
      = jsMathRound ((calculateTotals items).subtotal * TAX_RATE_NUM) TAX_RATE_DEN := by
    simp [calculateTotals]
  refine ⟨?_, ?_, ?_, ?_, ?_, ?_, ?_⟩
  · simp [calculateTotals, foldl_add_total_price]
  · rw [htax]
    exact hbounds.1
  · rw [htax]
    exact hbounds.2
  · simp [calculateTotals, ge_iff_le]
  · simp [calculateTotals]
  · simp [calculateTotals]
  · decide

/-- The create request exercising a negative quantity: one line item for the
in-stock USD product `ai-voice-assistant` with quantity -1. -/
def negativeQtyCreateRequest : CheckoutCreateRequest :=
  { line_items := [{ item := { id := "ai-voice-assistant" }, quantity := -1 }]
  , currency := "USD"
  , payment := none
  , buyer := none }

/-- C10. Quantity is never validated: for any integer quantity `q` —
including zero and negative values — resolving a request for an in-stock,
currency-matching product emits a line item with `total_price = price * q`
and no error, and Create accepts such a request: with quantity -1 the
created session has a negative subtotal and a negative total. -/
theorem quantity_never_validated (gen : Nat → String) (n : Nat) (q : Int) :
    resolveLineItems gen [{ item := { id := "ai-voice-assistant" }, quantity := q }] "USD" n
      = ([{ id := gen n
          , item := { id := "ai-voice-assistant"
                    , name := "AI Voice Assistant"
                    , description := "Smart speaker with advanced voice AI and multi-room audio"
                    , image_url := some "https://images.unsplash.com/photo-1543512214-318c7553f230?w=200&h=200&fit=crop" }
          , quantity := q
          , unit_price := 8999
          , total_price := 8999 * q }], []) ∧
    ∃ s, createCheckoutSession demoGen 0 negativeQtyCreateRequest 0 = .created s ∧
      s.totals.subtotal = -8999 ∧ s.totals.total = -9187 ∧
      s.totals.subtotal < 0 ∧ s.totals.total < 0 := by
  constructor
  · rfl
  · exact ⟨_, rfl, by decide, by decide, by decide, by decide⟩

/-- A complete request carrying a handler id and the designated failure
token. -/
def failTokenBody : PaymentData :=
  { handler_id := some "mock-payment-handler", token := some "fail_token" }

/-- C5. Failed settlement: from `ready_for_complete`, Complete with a
supplied handler id and token `fail_token` persists the session with status
`complete_in_progress` first, then saves and returns (with a 400 result,
the `paymentFailed` outcome) the session reverted to `ready_for_complete`
with payment status `failed` and a `PAYMENT_FAILED` message; the
`paymentFailed` outcome carries no order and `saveOrder` never runs. -/
theorem complete_fail_token_reverts (gen : Nat → String) (n : Nat)
    (checkout : CheckoutResponse) (body : PaymentData) (now : Int)
    (hst : checkout.status = .ready_for_complete)
    (hh : truthyStr body.handler_id = true)
    (ht : body.token = some "fail_token") :
    completeCheckoutSession gen n checkout body now
      = .paymentFailed { checkout with status := .complete_in_progress }
          { checkout with
            status := .ready_for_complete
          , payment := { checkout.payment with status := .failed }
          , messages := some [paymentFailedMessage] } := by
  simp [completeCheckoutSession, hst, hh, ht]

theorem complete_fail_token_reverts_witness :
    completeCheckoutSession demoGen 0
        (demoSession .ready_for_complete (some "mock-instrument-1")) failTokenBody 5
      = .paymentFailed
          { demoSession .ready_for_complete (some "mock-instrument-1") with
            status := .complete_in_progress }
          { demoSession .ready_for_complete (some "mock-instrument-1") with
            status := .ready_for_complete
          , payment := { (demoSession .ready_for_complete (some "mock-instrument-1")).payment with
                         status := .failed }
          , messages := some [paymentFailedMessage] } :=
  complete_fail_token_reverts demoGen 0 _ _ 5 rfl (by decide) rfl

/-- C6. Complete on an already-completed session: whatever the request body
and time, the handler returns the 400 "already completed" outcome before
reading the body; the `alreadyCompleted` outcome saves nothing (no session
write, no order write), so the stored session is unchanged. -/
theorem complete_on_completed_rejected (gen : Nat → String) (n : Nat)
    (checkout : CheckoutResponse) (body : PaymentData) (now : Int)
    (h : checkout.status = .completed) :
    completeCheckoutSession gen n checkout body now = .alreadyCompleted := by
  simp [completeCheckoutSession, h]

theorem complete_on_completed_rejected_witness :
    completeCheckoutSession demoGen 0
        (demoSession .completed (some "mock-instrument-1")) failTokenBody 0
      = .alreadyCompleted :=
  complete_on_completed_rejected demoGen 0 _ _ 0 rfl

/-- The session Cancel produces from a non-terminal session: status
`canceled` and exactly one informational `CANCELED` message appended to the
existing message list; every other field is unchanged. -/
def canceledVersion (checkout : CheckoutResponse) : CheckoutResponse :=
  { checkout with
    status := .canceled
  , messages := some ((checkout.messages.getD []) ++ [canceledMessage]) }

/-- C7. Cancel idempotence and guard: on a session that is neither
`completed` nor `canceled`, Cancel saves and returns the session with
status `canceled` and exactly one appended informational `CANCELED`
message; a second Cancel returns that same session unchanged (the
`alreadyCanceled` outcome, which saves nothing), appending no duplicate;
Cancel on a `completed` session is rejected with the 400 `cannotCancel`
outcome. -/
theorem cancel_idempotent_and_guarded (checkout : CheckoutResponse) :
    (checkout.status ≠ .completed → checkout.status ≠ .canceled →
      cancelCheckoutSession checkout = .ok (canceledVersion checkout) ∧
      (canceledVersion checkout).status = .canceled ∧
      (canceledVersion checkout).messages
        = some ((checkout.messages.getD []) ++ [canceledMessage]) ∧
      cancelCheckoutSession (canceledVersion checkout)
        = .alreadyCanceled (canceledVersion checkout)) ∧
    (checkout.status = .completed → cancelCheckoutSession checkout = .cannotCancel) := by
  constructor
  · intro h1 h2
    refine ⟨?_, rfl, rfl, ?_⟩
    · simp [cancelCheckoutSession, h1, h2, canceledVersion]
    · simp [cancelCheckoutSession, canceledVersion]
  · intro h
    simp [cancelCheckoutSession, h]

theorem cancel_idempotent_and_guarded_witness :
    (cancelCheckoutSession (demoSession .incomplete none)
        = .ok (canceledVersion (demoSession .incomplete none)) ∧
      (canceledVersion (demoSession .incomplete none)).status = .canceled ∧
      (canceledVersion (demoSession .incomplete none)).messages
        = some (((demoSession .incomplete none).messages.getD []) ++ [canceledMessage]) ∧
      cancelCheckoutSession (canceledVersion (demoSession .incomplete none))
        = .alreadyCanceled (canceledVersion (demoSession .incomplete none))) ∧
    cancelCheckoutSession (demoSession .completed (some "mock-instrument-1"))
        = .cannotCancel :=
  ⟨(cancel_idempotent_and_guarded (demoSession .incomplete none)).1
      (by decide) (by decide),
   (cancel_idempotent_and_guarded (demoSession .completed (some "mock-instrument-1"))).2 rfl⟩

def extraInstrument : PaymentInstrument :=
  { id := "inst-extra"
  , handler_id := "mock-payment-handler"
  , type := "token"
  , display_name := some "Extra Payment" }

/-- An update request whose payment object supplies `instruments` but omits
`selected_instrument_id`. -/
def omitSelectedUpdateBody : CheckoutUpdateRequest :=
  { line_items := none
  , payment := some { selected_instrument_id := none
                    , instruments := some [extraInstrument] }
  , buyer := none }

/-- C8 counterexample: updating a session that has a selected instrument
with a payment object that supplies only `instruments` does not preserve
`selected_instrument_id` — the handler overwrites it with the request's
(absent) value, clearing it, contrary to the claim that each payment field
is replaced only if supplied. -/
theorem update_clears_omitted_selected_instrument :
    (demoSession .ready_for_complete (some "mock-instrument-1")).payment.selected_instrument_id
      = some "mock-instrument-1" ∧
    ∃ c', updateCheckoutSession demoGen 0
        (demoSession .ready_for_complete (some "mock-instrument-1"))
        omitSelectedUpdateBody 2000 = .ok c' ∧
      c'.payment.selected_instrument_id = none :=
  ⟨rfl, _, rfl, rfl⟩

/-- C8 amended. Update payment merge: on a non-terminal session, when a
payment object is supplied, `instruments` is replaced only if supplied
(preserving the existing list otherwise) while `selected_instrument_id` is
always overwritten with the request's value (hence cleared when omitted),
and the payment status is untouched; when the payment object is absent the
whole payment group is untouched; field groups omitted from the update
request (line_items, payment, buyer) are left untouched. -/
theorem update_payment_merge_amended (gen : Nat → String) (n : Nat)
    (checkout : CheckoutResponse) (body : CheckoutUpdateRequest) (now : Int)
    (h1 : checkout.status ≠ .completed) (h2 : checkout.status ≠ .canceled) :
    updateCheckoutSession gen n checkout body now
      = .ok (updatedVersion gen n checkout body now) ∧
    (∀ p, body.payment = some p →
      (updatedVersion gen n checkout body now).payment.selected_instrument_id
          = p.selected_instrument_id ∧
      (updatedVersion gen n checkout body now).payment.instruments
          = p.instruments.getD checkout.payment.instruments ∧
      (updatedVersion gen n checkout body now).payment.status
          = checkout.payment.status) ∧
    (body.payment = none →
      (updatedVersion gen n checkout body now).payment.selected_instrument_id
          = checkout.payment.selected_instrument_id ∧
      (updatedVersion gen n checkout body now).payment.instruments
          = checkout.payment.instruments ∧
      (updatedVersion gen n checkout body now).payment.status
          = checkout.payment.status) ∧
    (body.line_items = none →
      (updatedVersion gen n checkout body now).line_items = checkout.line_items ∧
      (updatedVersion gen n checkout body now).totals = checkout.totals) ∧
    (body.buyer = none →
      (updatedVersion gen n checkout body now).buyer = checkout.buyer) := by
  rcases body with ⟨bli, bp, bb⟩
  refine ⟨by simp [updateCheckoutSession, h1, h2], ?_, ?_, ?_, ?_⟩
  · intro p hp
    subst hp
    cases bli <;> cases bb <;>
      simp [updatedVersion] <;> split <;> simp
  · intro hp
    subst hp
    cases bli <;> cases bb <;>
      simp [updatedVersion] <;> split <;> simp
  · intro hli
    subst hli
    cases bp <;> cases bb <;> simp [updatedVersion]
  · intro hb
    subst hb
    cases bli <;> cases bp <;>
      simp [updatedVersion] <;> split <;> simp

theorem update_payment_merge_amended_witness :
    updateCheckoutSession demoGen 0 (demoSession .incomplete none)
        omitSelectedUpdateBody 2000
      = .ok (updatedVersion demoGen 0 (demoSession .incomplete none)
          omitSelectedUpdateBody 2000) ∧
    (∀ p, omitSelectedUpdateBody.payment = some p →
      (updatedVersion demoGen 0 (demoSession .incomplete none)
          omitSelectedUpdateBody 2000).payment.selected_instrument_id
          = p.selected_instrument_id ∧
      (updatedVersion demoGen 0 (demoSession .incomplete none)
          omitSelectedUpdateBody 2000).payment.instruments
          = p.instruments.getD (demoSession .incomplete none).payment.instruments ∧
      (updatedVersion demoGen 0 (demoSession .incomplete none)
          omitSelectedUpdateBody 2000).payment.status
          = (demoSession .incomplete none).payment.status) ∧
    (omitSelectedUpdateBody.payment = none →
      (updatedVersion demoGen 0 (demoSession .incomplete none)
          omitSelectedUpdateBody 2000).payment.selected_instrument_id
          = (demoSession .incomplete none).payment.selected_instrument_id ∧
      (updatedVersion demoGen 0 (demoSession .incomplete none)
          omitSelectedUpdateBody 2000).payment.instruments
          = (demoSession .incomplete none).payment.instruments ∧
      (updatedVersion demoGen 0 (demoSession .incomplete none)
          omitSelectedUpdateBody 2000).payment.status
          = (demoSession .incomplete none).payment.status) ∧
    (omitSelectedUpdateBody.line_items = none →
      (updatedVersion demoGen 0 (demoSession .incomplete none)
          omitSelectedUpdateBody 2000).line_items
          = (demoSession .incomplete none).line_items ∧
      (updatedVersion demoGen 0 (demoSession .incomplete none)
          omitSelectedUpdateBody 2000).totals
          = (demoSession .incomplete none).totals) ∧
    (omitSelectedUpdateBody.buyer = none →
      (updatedVersion demoGen 0 (demoSession .incomplete none)
          omitSelectedUpdateBody 2000).buyer
          = (demoSession .incomplete none).buyer) :=
  update_payment_merge_amended demoGen 0 (demoSession .incomplete none)
    omitSelectedUpdateBody 2000 (by decide) (by decide)

/-- An update request that removes the selected payment instrument: the
payment object is supplied with no `selected_instrument_id`. -/
def removeInstrumentBody : CheckoutUpdateRequest :=
  { line_items := none
  , payment := some { selected_instrument_id := none, instruments := none }
  , buyer := none }

/-- C9. Status recomputation under Update: on a non-terminal session the
stored result of Update carries exactly the status the section 4.3 decision
table assigns to its new fields, and in particular any update whose payment
object removes the selected instrument (supplies none) leaves the session
`incomplete` — so a `ready_for_complete` session drops back to
`incomplete`. -/
theorem update_recomputes_status (gen : Nat → String) (n : Nat)
    (checkout : CheckoutResponse) (body : CheckoutUpdateRequest) (now : Int)
    (h1 : checkout.status ≠ .completed) (h2 : checkout.status ≠ .canceled) :
    updateCheckoutSession gen n checkout body now
      = .ok (updatedVersion gen n checkout body now) ∧
    (updatedVersion gen n checkout body now).status
      = statusTable (updatedVersion gen n checkout body now).line_items
          (updatedVersion gen n checkout body now).payment.selected_instrument_id ∧
    (∀ p, body.payment = some p → p.selected_instrument_id = none →
      (updatedVersion gen n checkout body now).status = .incomplete) := by
  refine ⟨by simp [updateCheckoutSession, h1, h2], ?_, ?_⟩
  · rw [statusTable_eq_determineStatus]
    rfl
  · intro p hp hsel
    rcases body with ⟨bli, bp, bb⟩
    cases hp
    cases bli <;> cases bb <;>
      simp [updatedVersion, determineStatus, truthyStr, hsel]

theorem update_recomputes_status_witness :
    updateCheckoutSession demoGen 0
        (demoSession .ready_for_complete (some "mock-instrument-1"))
        removeInstrumentBody 2000
      = .ok (updatedVersion demoGen 0
          (demoSession .ready_for_complete (some "mock-instrument-1"))
          removeInstrumentBody 2000) ∧
    (updatedVersion demoGen 0
        (demoSession .ready_for_complete (some "mock-instrument-1"))
        removeInstrumentBody 2000).status
      = statusTable
          (updatedVersion demoGen 0
            (demoSession .ready_for_complete (some "mock-instrument-1"))
            removeInstrumentBody 2000).line_items
          (updatedVersion demoGen 0
            (demoSession .ready_for_complete (some "mock-instrument-1"))
            removeInstrumentBody 2000).payment.selected_instrument_id ∧
    (∀ p, removeInstrumentBody.payment = some p → p.selected_instrument_id = none →
      (updatedVersion demoGen 0
          (demoSession .ready_for_complete (some "mock-instrument-1"))
          removeInstrumentBody 2000).status = .incomplete) :=
  update_recomputes_status demoGen 0
    (demoSession .ready_for_complete (some "mock-instrument-1"))
    removeInstrumentBody 2000 (by decide) (by decide)

/-- A stored `completed` session (order placed, payment captured) whose
`expires_at` lies in the past. -/
def expiredCompletedSession : CheckoutResponse :=
  { demoSession .completed (some "mock-instrument-1") with
    expires_at := 0
  , payment := { selected_instrument_id := some "mock-instrument-1"
               , instruments := defaultInstruments
               , status := .captured }
  , order := some { id := "ORD-12345678", created_at := 500 } }

/-- C1. Terminal sessions are not immutable in the code: the Get handler's
lazy-expiry branch tests only `expires_at < now`, never the status, so Get
at time 1 on a `completed` session that expired at time 0 overwrites its
status with `canceled`, appends an `EXPIRED` message and saves — the stored
session differs from the one that was stored before the read. -/
theorem get_mutates_expired_completed_session :
    expiredCompletedSession.status = .completed ∧
    (getCheckoutSession expiredCompletedSession 1).2 = true ∧
    (getCheckoutSession expiredCompletedSession 1).1.status = .canceled ∧
    (getCheckoutSession expiredCompletedSession 1).1.messages = some [expiredMessage] ∧
    (getCheckoutSession expiredCompletedSession 1).1 ≠ expiredCompletedSession :=
  ⟨rfl, rfl, rfl, rfl, by decide⟩

/-- A stored non-terminal session whose `expires_at` lies in the past. -/
def expiredIncompleteSession : CheckoutResponse :=
  { demoSession .incomplete none with expires_at := 0 }

/-- C2. Lazy expiry is not guarded and not idempotent in the code: the
first Get on an expired non-terminal session does transition it to
`canceled` with one `EXPIRED` message and save it, but the handler never
checks for a terminal status, so a second Get on the now-canceled (still
expired) session mutates it again, appending a second `EXPIRED` message
instead of returning the same state. -/
theorem get_reappends_expired_message :
    (getCheckoutSession expiredIncompleteSession 1).1.status = .canceled ∧
    (getCheckoutSession expiredIncompleteSession 1).1.messages = some [expiredMessage] ∧
    (getCheckoutSession expiredIncompleteSession 1).2 = true ∧
    (getCheckoutSession (getCheckoutSession expiredIncompleteSession 1).1 2).2 = true ∧
    (getCheckoutSession (getCheckoutSession expiredIncompleteSession 1).1 2).1.messages
      = some [expiredMessage, expiredMessage] :=
  ⟨rfl, rfl, rfl, rfl, rfl⟩
